import Mathlib

/-!
Shallow embedding of the boids flocking core (`src/boids.rs`) of the
BevyJam2023 game, together with proofs of the specified properties.

Modelling conventions:
* `f32` scalars are modelled as real numbers (`ℝ`); the Rust constants
  are exact in this model.
* 2D vectors (`Vec3` with a fixed zero `z`, positions from `Transform`)
  are modelled as pairs `ℝ × ℝ`.
* The one `f32` operation that can misbehave — division by a zero
  `speed` in `compute_new_speed`, which produces NaN in IEEE arithmetic —
  is modelled by an `Option`-valued result: `none` stands for the NaN
  outcome.  A total variant `compute_new_speed0` (Lean's `x / 0 = 0`
  convention) is used inside the whole-tick model, where the value
  written back is irrelevant to the snapshot property being proved; the
  two variants agree whenever the speed is nonzero.
* The mutable per-agent state touched by `move_boids` (a `Transform`
  position, a `Velocity`, a `BoidRole`) is the structure `Boid`.
-/

noncomputable section

namespace Boids

/-- `TURN_FACTOR: f32 = 1.` — boids' ability to turn fast. -/
def TURN_FACTOR : ℝ := 1

/-- `VISION_RANGE: u32 = 50` — radius (px) of the circle in which boids can see. -/
def VISION_RANGE : ℕ := 50

/-- `ISOLATION_RANGE: u32 = 10` — radius (px) in which boids want to be alone. -/
def ISOLATION_RANGE : ℕ := 10

/-- `CENTERING_FACTOR: f32 = 0.0005` — cohesion rule factor. -/
def CENTERING_FACTOR : ℝ := 0.0005

/-- `AVOIDANCE_FACTOR: f32 = 0.1` — separation rule factor. -/
def AVOIDANCE_FACTOR : ℝ := 0.1

/-- `MATCHING_FACTOR: f32 = 0.15` — alignment rule factor. -/
def MATCHING_FACTOR : ℝ := 0.15

/-- `MAX_SPEED: f32 = 6.` — max boids speed. -/
def MAX_SPEED : ℝ := 6

/-- `MIN_SPEED: f32 = 5.5` — min boids speed. -/
def MIN_SPEED : ℝ := 5.5

/-- `BIAS: f32 = 0.05` — scout bias magnitude. -/
def BIAS : ℝ := 0.05

/-- `enum BoidRole { Common, Scout(u8) }`.  The scout group id is a `u8`
in the source; it is modelled as `ℕ` (the `match` in `apply_bias` only
tests it against the literals `1` and `2`, so the wider carrier is
inessential). -/
inductive BoidRole where
  | Common : BoidRole
  | Scout : ℕ → BoidRole
deriving DecidableEq

/-- The per-agent mutable state seen by `move_boids`: the `Transform`
translation (x, y), the `Velocity` vector (x, y) and the `BoidRole`. -/
structure Boid where
  pos : ℝ × ℝ
  vel : ℝ × ℝ
  role : BoidRole

/-- `struct BoidEstimate` — what a boid sees within visual range. -/
structure BoidEstimate where
  xpos_avg : ℝ
  ypos_avg : ℝ
  xvel_avg : ℝ
  yvel_avg : ℝ
  neighboring_boids : ℕ
  close_dx : ℝ
  close_dy : ℝ

/-- `BoidEstimate::new()` — all fields zero. -/
def BoidEstimate.new : BoidEstimate :=
  { xpos_avg := 0, ypos_avg := 0, xvel_avg := 0, yvel_avg := 0,
    neighboring_boids := 0, close_dx := 0, close_dy := 0 }

/-- `evaluate_situation(current, other, estimate)` — folds one snapshot
record `other` into `current`'s estimate.  The axis-aligned box
prefilter (`|dx| < visual_range && |dy| < visual_range`) gates both the
protected-range branch and the visual-range branch. -/
def evaluate_situation (current other : Boid) (estimate : BoidEstimate) :
    BoidEstimate :=
  let visual_range : ℝ := (VISION_RANGE : ℝ)
  let protected_range : ℝ := (ISOLATION_RANGE : ℝ)
  let dx := current.pos.1 - other.pos.1
  let dy := current.pos.2 - other.pos.2
  if |dx| < visual_range ∧ |dy| < visual_range then
    let squared_distance := dx * dx + dy * dy
    if squared_distance < protected_range * protected_range then
      { estimate with
        close_dx := estimate.close_dx + (current.pos.1 - other.pos.1),
        close_dy := estimate.close_dy + (current.pos.2 - other.pos.2) }
    else if squared_distance < visual_range * visual_range then
      { estimate with
        xpos_avg := estimate.xpos_avg + other.pos.1,
        ypos_avg := estimate.ypos_avg + other.pos.2,
        xvel_avg := estimate.xvel_avg + other.vel.1,
        yvel_avg := estimate.yvel_avg + other.vel.2,
        neighboring_boids := estimate.neighboring_boids + 1 }
    else estimate
  else estimate

/-- `set_average_speed_and_pos(estimate)` — divides the four running
sums by `neighboring_boids` (cast to float).  In `move_boids` it is only
reached under the `neighboring_boids > 0` guard. -/
def set_average_speed_and_pos (estimate : BoidEstimate) : BoidEstimate :=
  let neighboring_boids : ℝ := (estimate.neighboring_boids : ℝ)
  { estimate with
    xpos_avg := estimate.xpos_avg / neighboring_boids,
    ypos_avg := estimate.ypos_avg / neighboring_boids,
    xvel_avg := estimate.xvel_avg / neighboring_boids,
    yvel_avg := estimate.yvel_avg / neighboring_boids }

/-- `apply_cohesion(current, estimate)` — returns the updated velocity:
`v += (avg_pos − pos) * centering_factor + (avg_vel − v) * matching_factor`
componentwise (each component update reads that component's old value). -/
def apply_cohesion (pos v : ℝ × ℝ) (estimate : BoidEstimate) : ℝ × ℝ :=
  let centering_factor := CENTERING_FACTOR
  let matching_factor := MATCHING_FACTOR
  (v.1 + ((estimate.xpos_avg - pos.1) * centering_factor
      + (estimate.xvel_avg - v.1) * matching_factor),
   v.2 + ((estimate.ypos_avg - pos.2) * centering_factor
      + (estimate.yvel_avg - v.2) * matching_factor))

/-- `apply_alignment(current, estimate)` — returns the updated velocity:
`v += (avg_vel − v) * matching_factor` componentwise. -/
def apply_alignment (v : ℝ × ℝ) (estimate : BoidEstimate) : ℝ × ℝ :=
  let matching_factor := MATCHING_FACTOR
  (v.1 + (estimate.xvel_avg - v.1) * matching_factor,
   v.2 + (estimate.yvel_avg - v.2) * matching_factor)

/-- `apply_avoidance(current, estimate)` — returns the updated velocity:
`v += close_offset * avoid_factor`. -/
def apply_avoidance (v : ℝ × ℝ) (estimate : BoidEstimate) : ℝ × ℝ :=
  let avoid_factor := AVOIDANCE_FACTOR
  (v.1 + estimate.close_dx * avoid_factor,
   v.2 + estimate.close_dy * avoid_factor)

/-- `turn_if_edge(current, screen_dimensions)` — returns the updated
velocity.  Each axis is checked independently; on each axis the
low-edge test (`<=`) has `else if` priority over the high-edge test
(`>=`). -/
def turn_if_edge (pos v : ℝ × ℝ) (screen_dimensions : ℝ × ℝ) : ℝ × ℝ :=
  let x := pos.1
  let y := pos.2
  let width := screen_dimensions.1
  let height := screen_dimensions.2
  let turn_factor := TURN_FACTOR
  let vx :=
    if x ≤ -width / 2 + 200 then v.1 + turn_factor
    else if x ≥ width / 2 - 200 then v.1 - turn_factor
    else v.1
  let vy :=
    if y ≤ -height / 2 + 200 then v.2 + turn_factor
    else if y ≥ height / 2 - 200 then v.2 - turn_factor
    else v.2
  (vx, vy)

/-- `apply_bias(current)` — returns the updated velocity.  Scouts of
group 1 drift right, group 2 drift left; `Common` and any other scout
group fall through to the wildcard arm and are untouched. -/
def apply_bias (role : BoidRole) (v : ℝ × ℝ) : ℝ × ℝ :=
  let bias := BIAS
  match role with
  | BoidRole.Scout 1 => ((1 - bias) * v.1 + bias, v.2)
  | BoidRole.Scout 2 => ((1 - bias) * v.1 - bias, v.2)
  | BoidRole.Common => v
  | _ => v

/-- The `speed` local of `compute_new_speed`:
`f32::sqrt(v.x * v.x + v.y * v.y)`. -/
def boid_speed (v : ℝ × ℝ) : ℝ :=
  Real.sqrt (v.1 * v.1 + v.2 * v.2)

/-- One rescaling step `v = (v / speed) * target` of `compute_new_speed`.
In `f32`, dividing by a zero `speed` yields NaN; that outcome is
modelled as `none`. -/
def rescale_to (v : ℝ × ℝ) (speed target : ℝ) : Option (ℝ × ℝ) :=
  if speed = 0 then none
  else some (v.1 / speed * target, v.2 / speed * target)

/-- `compute_new_speed(current)` — returns the normalized velocity, or
`none` when the `f32` code would produce NaN components (division by a
zero `speed`).  Both `if`s test the speed computed once at entry; the
second rescale reads the velocity left by the first. -/
def compute_new_speed (v : ℝ × ℝ) : Option (ℝ × ℝ) :=
  let min_speed := MIN_SPEED
  let max_speed := MAX_SPEED
  let speed := boid_speed v
  (if speed < min_speed then rescale_to v speed min_speed else some v).bind
    fun v1 => if speed > max_speed then rescale_to v1 speed max_speed else some v1

/-- Total variant of `compute_new_speed` under Lean's `x / 0 = 0`
convention, used to close the whole-tick model; it agrees with
`compute_new_speed` whenever the speed is nonzero
(`compute_new_speed0_eq`). -/
def compute_new_speed0 (v : ℝ × ℝ) : ℝ × ℝ :=
  let min_speed := MIN_SPEED
  let max_speed := MAX_SPEED
  let speed := boid_speed v
  let v1 := if speed < min_speed
    then (v.1 / speed * min_speed, v.2 / speed * min_speed) else v
  if speed > max_speed
    then (v1.1 / speed * max_speed, v1.2 / speed * max_speed) else v1

/-- `compute_new_position(current, screen_dimensions)` — integrates
`position += v` and clamps each component to the half-extents with
the asymmetric `>` / `<=` tests of the source. -/
def compute_new_position (pos v : ℝ × ℝ) (screen_dimensions : ℝ × ℝ) :
    ℝ × ℝ :=
  let x0 := pos.1 + v.1
  let y0 := pos.2 + v.2
  let width := screen_dimensions.1 / 2
  let height := screen_dimensions.2 / 2
  let x := if x0 > width then width else if x0 ≤ -width then -width else x0
  let y := if y0 > height then height else if y0 ≤ -height then -height else y0
  (x, y)

/-- The estimate loop of `move_boids`: fold `evaluate_situation` over
the cloned snapshot `tmp`, starting from `BoidEstimate::new()`. -/
def estimate_from (snapshot : List Boid) (current : Boid) : BoidEstimate :=
  snapshot.foldl (fun acc other => evaluate_situation current other acc)
    BoidEstimate.new

/-- The `if estimate.neighboring_boids > 0 { … }` steering block of
`move_boids`: averaging, cohesion, alignment and avoidance, all gated
on the visual-range neighbor count. -/
def flock_steering (estimate : BoidEstimate) (pos v : ℝ × ℝ) : ℝ × ℝ :=
  if 0 < estimate.neighboring_boids then
    let e := set_average_speed_and_pos estimate
    apply_avoidance (apply_alignment (apply_cohesion pos v e) e) e
  else v

/-- The per-boid body of the `move_boids` loop: estimate from the
snapshot, steer, edge-turn, bias, normalize speed, integrate. -/
def update_boid (screen_dimensions : ℝ × ℝ) (snapshot : List Boid)
    (b : Boid) : Boid :=
  let estimate := estimate_from snapshot b
  let v1 := flock_steering estimate b.pos b.vel
  let v2 := turn_if_edge b.pos v1 screen_dimensions
  let v3 := apply_bias b.role v2
  let v4 := compute_new_speed0 v3
  { pos := compute_new_position b.pos v4 screen_dimensions,
    vel := v4, role := b.role }

/-- The in-place mutation loop of `move_boids`: starting at index `i`,
each step reads the *live* boid at `i` (the evolving list), updates it
against the fixed `snapshot`, writes it back, and moves on. -/
def move_boids_from (screen_dimensions : ℝ × ℝ) (snapshot : List Boid)
    (i : ℕ) (live : List Boid) : List Boid :=
  if h : i < live.length then
    move_boids_from screen_dimensions snapshot (i + 1)
      (live.set i (update_boid screen_dimensions snapshot live[i]))
  else live
termination_by live.length - i
decreasing_by simp [List.length_set]; omega

/-- One tick of `move_boids` (given the window dimensions): clone the
snapshot `tmp` from the current agents, then run the in-place loop over
the same agents. -/
def move_boids (screen_dimensions : ℝ × ℝ) (boids : List Boid) :
    List Boid :=
  let tmp := boids
  move_boids_from screen_dimensions tmp 0 boids

/-! ## Theorems -/

/-- C1: the Speed Normalizer does *not* guard against a zero speed.  At
velocity `(0, 0)` (every boid's spawn velocity) the computed speed is
`0`, which satisfies the `speed < min_speed` test, so the rescale branch
fires and divides the components by zero — in `f32` this produces NaN
(modelled as `none`) instead of leaving the velocity unchanged. -/
theorem compute_new_speed_zero_unguarded :
    boid_speed ((0 : ℝ), (0 : ℝ)) = 0 ∧
    boid_speed ((0 : ℝ), (0 : ℝ)) < MIN_SPEED ∧
    compute_new_speed ((0 : ℝ), (0 : ℝ)) = none := by
  have h0 : boid_speed ((0 : ℝ), (0 : ℝ)) = 0 := by
    unfold boid_speed
    norm_num
  refine ⟨h0, ?_, ?_⟩
  · rw [h0]; norm_num [MIN_SPEED]
  · unfold compute_new_speed rescale_to
    rw [h0]
    norm_num [MIN_SPEED]

/-- C5: the snapshot scan of `move_boids` does fold the agent's own
record into its estimate, but that fold step is the identity (distance
zero lands in the protected branch and adds `(0, 0)` to
`close_offset`), so the resulting summary is the same as if the agent's
own record were excluded from the scan. -/
theorem evaluate_situation_self_excluded (b : Boid) (e : BoidEstimate)
    (l1 l2 : List Boid) :
    (l1 ++ b :: l2).foldl (fun acc other => evaluate_situation b other acc) e =
      (l1 ++ l2).foldl (fun acc other => evaluate_situation b other acc) e := by
  have hself : ∀ e' : BoidEstimate, evaluate_situation b b e' = e' := by
    intro e'
    unfold evaluate_situation
    norm_num [ISOLATION_RANGE, VISION_RANGE]
  simp [List.foldl_append, hself]

/-- C8: the axis-aligned box prefilter gates the whole of
`evaluate_situation`: whenever `|dx| ≥ visual_range` (or
`|dy| ≥ visual_range`), the other agent contributes nothing — neither to
the protected-range branch nor to the cohesion band.  In particular an
agent with `|dx| ≥ visual_range` is never counted as a neighbor. -/
theorem box_prefilter_excludes (current other : Boid) (e : BoidEstimate)
    (h : (VISION_RANGE : ℝ) ≤ |current.pos.1 - other.pos.1| ∨
         (VISION_RANGE : ℝ) ≤ |current.pos.2 - other.pos.2|) :
    evaluate_situation current other e = e := by
  unfold evaluate_situation
  rw [if_neg]
  rintro ⟨hx, hy⟩
  rcases h with h | h
  · exact absurd hx (not_lt.2 h)
  · exact absurd hy (not_lt.2 h)

/-- Witness for C8: an agent 60 px to the right is at `|dx| = 60 ≥ 50`
and leaves a fresh estimate untouched. -/
theorem box_prefilter_excludes_witness :
    ((VISION_RANGE : ℝ) ≤ |((0 : ℝ), (0 : ℝ)).1 - ((60 : ℝ), (0 : ℝ)).1| ∨
      (VISION_RANGE : ℝ) ≤ |((0 : ℝ), (0 : ℝ)).2 - ((60 : ℝ), (0 : ℝ)).2|) ∧
    evaluate_situation ⟨(0, 0), (0, 0), BoidRole.Common⟩
        ⟨(60, 0), (0, 0), BoidRole.Common⟩ BoidEstimate.new =
      BoidEstimate.new :=
  ⟨Or.inl (by norm_num [VISION_RANGE]),
    box_prefilter_excludes ⟨(0, 0), (0, 0), BoidRole.Common⟩
      ⟨(60, 0), (0, 0), BoidRole.Common⟩ BoidEstimate.new
      (Or.inl (by norm_num [VISION_RANGE]))⟩

/-- C10: a `Scout` whose group id is neither `1` nor `2` falls through
to the wildcard arm of `apply_bias` and its velocity is left entirely
unchanged, exactly as for a `Common` boid. -/
theorem apply_bias_unknown_group_noop (g : ℕ) (v : ℝ × ℝ)
    (h1 : g ≠ 1) (h2 : g ≠ 2) :
    apply_bias (BoidRole.Scout g) v = v ∧ apply_bias BoidRole.Common v = v := by
  refine ⟨?_, rfl⟩
  match g with
  | 0 => rfl
  | 1 => exact absurd rfl h1
  | 2 => exact absurd rfl h2
  | n + 3 => rfl

/-- Witness for C10: group `7` is a no-op on the velocity `(2, 3)`. -/
theorem apply_bias_unknown_group_noop_witness :
    apply_bias (BoidRole.Scout 7) ((2 : ℝ), (3 : ℝ)) = ((2 : ℝ), (3 : ℝ)) ∧
    apply_bias BoidRole.Common ((2 : ℝ), (3 : ℝ)) = ((2 : ℝ), (3 : ℝ)) :=
  apply_bias_unknown_group_noop 7 (2, 3) (by decide) (by decide)

/-- C4: the Integrator adds the full velocity to the position (no
time-delta scaling) and clamps each component with the asymmetric
rule — strictly above the positive half-extent snaps to it, at or below
the negative half-extent snaps to it — so both components end up inside
the half-extents (for nonnegative arena dimensions). -/
theorem compute_new_position_bounds (pos v : ℝ × ℝ) (w h : ℝ)
    (hw : 0 ≤ w) (hh : 0 ≤ h) :
    -(w / 2) ≤ (compute_new_position pos v (w, h)).1 ∧
    (compute_new_position pos v (w, h)).1 ≤ w / 2 ∧
    -(h / 2) ≤ (compute_new_position pos v (w, h)).2 ∧
    (compute_new_position pos v (w, h)).2 ≤ h / 2 ∧
    (pos.1 + v.1 > w / 2 → (compute_new_position pos v (w, h)).1 = w / 2) ∧
    (pos.1 + v.1 ≤ -(w / 2) →
      (compute_new_position pos v (w, h)).1 = -(w / 2)) ∧
    (-(w / 2) < pos.1 + v.1 → pos.1 + v.1 ≤ w / 2 →
      (compute_new_position pos v (w, h)).1 = pos.1 + v.1) ∧
    (pos.2 + v.2 > h / 2 → (compute_new_position pos v (w, h)).2 = h / 2) ∧
    (pos.2 + v.2 ≤ -(h / 2) →
      (compute_new_position pos v (w, h)).2 = -(h / 2)) ∧
    (-(h / 2) < pos.2 + v.2 → pos.2 + v.2 ≤ h / 2 →
      (compute_new_position pos v (w, h)).2 = pos.2 + v.2) := by
  unfold compute_new_position
  simp only
  split_ifs <;>
    refine ⟨by linarith, by linarith, by linarith, by linarith,
      ?_, ?_, ?_, ?_, ?_, ?_⟩ <;>
    intros <;> first | rfl | linarith

/-- Witness for C4: starting at `(60, −70)` with zero velocity in a
`100 × 100` arena, the x component snaps down to `50` and the y
component snaps up to `−50`. -/
theorem compute_new_position_bounds_witness :
    compute_new_position ((60 : ℝ), (-70 : ℝ)) ((0 : ℝ), (0 : ℝ)) (100, 100) =
      (100 / 2, -(100 / 2)) := by
  have h := compute_new_position_bounds (60, -70) (0, 0) 100 100
    (by norm_num) (by norm_num)
  exact Prod.ext (h.2.2.2.2.1 (by norm_num)) (h.2.2.2.2.2.2.2.2.1 (by norm_num))

/-- C6: the edge-turning rule nudges the velocity component
perpendicular to a boundary inward by `TURN_FACTOR` whenever the agent
is within 200 units of that boundary; the two axes are checked
independently, and at a corner both components are nudged inward in the
same call. -/
theorem turn_if_edge_margin (pos v : ℝ × ℝ) (w h : ℝ) :
    (pos.1 ≤ -w / 2 + 200 →
      (turn_if_edge pos v (w, h)).1 = v.1 + TURN_FACTOR) ∧
    (¬pos.1 ≤ -w / 2 + 200 → pos.1 ≥ w / 2 - 200 →
      (turn_if_edge pos v (w, h)).1 = v.1 - TURN_FACTOR) ∧
    (¬pos.1 ≤ -w / 2 + 200 → ¬pos.1 ≥ w / 2 - 200 →
      (turn_if_edge pos v (w, h)).1 = v.1) ∧
    (pos.2 ≤ -h / 2 + 200 →
      (turn_if_edge pos v (w, h)).2 = v.2 + TURN_FACTOR) ∧
    (¬pos.2 ≤ -h / 2 + 200 → pos.2 ≥ h / 2 - 200 →
      (turn_if_edge pos v (w, h)).2 = v.2 - TURN_FACTOR) ∧
    (¬pos.2 ≤ -h / 2 + 200 → ¬pos.2 ≥ h / 2 - 200 →
      (turn_if_edge pos v (w, h)).2 = v.2) ∧
    (pos.1 ≤ -w / 2 + 200 → pos.2 ≤ -h / 2 + 200 →
      turn_if_edge pos v (w, h) = (v.1 + TURN_FACTOR, v.2 + TURN_FACTOR)) := by
  unfold turn_if_edge
  simp only
  split_ifs <;> simp_all

/-- Witness for C6: a boid at the bottom-left corner region of a
`2000 × 2000` arena has both velocity components nudged inward. -/
theorem turn_if_edge_margin_witness :
    turn_if_edge ((-900 : ℝ), (-900 : ℝ)) ((2 : ℝ), (3 : ℝ)) (2000, 2000) =
      ((2 : ℝ) + TURN_FACTOR, (3 : ℝ) + TURN_FACTOR) :=
  (turn_if_edge_margin ((-900 : ℝ), (-900 : ℝ)) ((2 : ℝ), (3 : ℝ))
    2000 2000).2.2.2.2.2.2 (by norm_num) (by norm_num)

/-- C7: when `neighboring_boids > 0`, the velocity-matching term is
applied twice — once inside `apply_cohesion` and once in
`apply_alignment` — so the steering block damps the velocity by
`(1 − matching_factor)²` (a single application would give
`1 − matching_factor`) and weights the average neighbor velocity by
`matching_factor · (2 − matching_factor)`. -/
theorem matching_applied_twice (estimate : BoidEstimate) (pos v : ℝ × ℝ)
    (h : 0 < estimate.neighboring_boids) :
    flock_steering estimate pos v =
      ((1 - MATCHING_FACTOR) ^ 2 * v.1
          + (1 - MATCHING_FACTOR) * CENTERING_FACTOR
              * ((set_average_speed_and_pos estimate).xpos_avg - pos.1)
          + MATCHING_FACTOR * (2 - MATCHING_FACTOR)
              * (set_average_speed_and_pos estimate).xvel_avg
          + estimate.close_dx * AVOIDANCE_FACTOR,
        (1 - MATCHING_FACTOR) ^ 2 * v.2
          + (1 - MATCHING_FACTOR) * CENTERING_FACTOR
              * ((set_average_speed_and_pos estimate).ypos_avg - pos.2)
          + MATCHING_FACTOR * (2 - MATCHING_FACTOR)
              * (set_average_speed_and_pos estimate).yvel_avg
          + estimate.close_dy * AVOIDANCE_FACTOR) := by
  unfold flock_steering apply_avoidance apply_alignment apply_cohesion
  rw [if_pos h]
  simp only [set_average_speed_and_pos]
  exact Prod.ext (by ring) (by ring)

/-- Witness for C7: a concrete estimate with two visual-range neighbors
run through the steering block. -/
theorem matching_applied_twice_witness :
    0 < (({ xpos_avg := 10, ypos_avg := 20, xvel_avg := 30, yvel_avg := 40,
            neighboring_boids := 2, close_dx := 5, close_dy := 6 } :
          BoidEstimate)).neighboring_boids ∧
    flock_steering
        { xpos_avg := 10, ypos_avg := 20, xvel_avg := 30, yvel_avg := 40,
          neighboring_boids := 2, close_dx := 5, close_dy := 6 } (1, 2) (3, 4) =
      ((1 - MATCHING_FACTOR) ^ 2 * 3
          + (1 - MATCHING_FACTOR) * CENTERING_FACTOR
              * ((set_average_speed_and_pos
                  { xpos_avg := 10, ypos_avg := 20, xvel_avg := 30,
                    yvel_avg := 40, neighboring_boids := 2, close_dx := 5,
                    close_dy := 6 }).xpos_avg - 1)
          + MATCHING_FACTOR * (2 - MATCHING_FACTOR)
              * (set_average_speed_and_pos
                  { xpos_avg := 10, ypos_avg := 20, xvel_avg := 30,
                    yvel_avg := 40, neighboring_boids := 2, close_dx := 5,
                    close_dy := 6 }).xvel_avg
          + 5 * AVOIDANCE_FACTOR,
        (1 - MATCHING_FACTOR) ^ 2 * 4
          + (1 - MATCHING_FACTOR) * CENTERING_FACTOR
              * ((set_average_speed_and_pos
                  { xpos_avg := 10, ypos_avg := 20, xvel_avg := 30,
                    yvel_avg := 40, neighboring_boids := 2, close_dx := 5,
                    close_dy := 6 }).ypos_avg - 2)
          + MATCHING_FACTOR * (2 - MATCHING_FACTOR)
              * (set_average_speed_and_pos
                  { xpos_avg := 10, ypos_avg := 20, xvel_avg := 30,
                    yvel_avg := 40, neighboring_boids := 2, close_dx := 5,
                    close_dy := 6 }).yvel_avg
          + 6 * AVOIDANCE_FACTOR) :=
  ⟨by norm_num,
    matching_applied_twice
      { xpos_avg := 10, ypos_avg := 20, xvel_avg := 30, yvel_avg := 40,
        neighboring_boids := 2, close_dx := 5, close_dy := 6 }
      (1, 2) (3, 4) (by norm_num)⟩

/-- C2 fails on the code: with two boids 5 px apart (inside the
protected range) the estimate has `neighboring_boids = 0` and a nonzero
`close_offset`, yet the steering block of `move_boids` leaves the
velocity unchanged — the avoidance adjustment, which would have moved
it, is *not* received, because `apply_avoidance` sits inside the
`neighboring_boids > 0` guard. -/
theorem avoidance_skipped_when_count_zero_cex :
    estimate_from
        [⟨(0, 0), (0, 0), BoidRole.Common⟩, ⟨(5, 0), (0, 0), BoidRole.Common⟩]
        ⟨(0, 0), (0, 0), BoidRole.Common⟩ =
      { xpos_avg := 0, ypos_avg := 0, xvel_avg := 0, yvel_avg := 0,
        neighboring_boids := 0, close_dx := -5, close_dy := 0 } ∧
    flock_steering
        { xpos_avg := 0, ypos_avg := 0, xvel_avg := 0, yvel_avg := 0,
          neighboring_boids := 0, close_dx := -5, close_dy := 0 } (0, 0) (0, 0) =
      ((0 : ℝ), (0 : ℝ)) ∧
    apply_avoidance ((0 : ℝ), (0 : ℝ))
        { xpos_avg := 0, ypos_avg := 0, xvel_avg := 0, yvel_avg := 0,
          neighboring_boids := 0, close_dx := -5, close_dy := 0 } ≠
      ((0 : ℝ), (0 : ℝ)) := by
  refine ⟨?_, ?_, ?_⟩
  · unfold estimate_from BoidEstimate.new
    simp only [List.foldl_cons, List.foldl_nil]
    norm_num [evaluate_situation, VISION_RANGE, ISOLATION_RANGE]
  · unfold flock_steering
    norm_num
  · unfold apply_avoidance
    simp only [Prod.mk.injEq]
    norm_num [AVOIDANCE_FACTOR]

/-- C2 amended: `close_offset` contributes the avoidance adjustment
`v += close_offset * avoidance_factor` only in ticks where the agent's
visual-range neighbor count is positive; with `count = 0` the steering
block of `move_boids` leaves the velocity unchanged even when
`close_offset` is nonzero. -/
theorem avoidance_gated_on_count (estimate : BoidEstimate) (pos v : ℝ × ℝ) :
    (estimate.neighboring_boids = 0 → flock_steering estimate pos v = v) ∧
    (0 < estimate.neighboring_boids →
      (flock_steering estimate pos v).1
          - (apply_alignment
              (apply_cohesion pos v (set_average_speed_and_pos estimate))
              (set_average_speed_and_pos estimate)).1
        = estimate.close_dx * AVOIDANCE_FACTOR ∧
      (flock_steering estimate pos v).2
          - (apply_alignment
              (apply_cohesion pos v (set_average_speed_and_pos estimate))
              (set_average_speed_and_pos estimate)).2
        = estimate.close_dy * AVOIDANCE_FACTOR) := by
  constructor
  · intro h0
    unfold flock_steering
    rw [if_neg]
    omega
  · intro hpos
    unfold flock_steering apply_avoidance
    rw [if_pos hpos]
    constructor <;> simp [set_average_speed_and_pos]

/-- Witness for C2's amended statement: with zero neighbor count and a
nonzero `close_offset`, the steering block returns the velocity
untouched. -/
theorem avoidance_gated_on_count_witness :
    flock_steering
        { xpos_avg := 0, ypos_avg := 0, xvel_avg := 0, yvel_avg := 0,
          neighboring_boids := 0, close_dx := -5, close_dy := 0 } (1, 2) (3, 4) =
      ((3 : ℝ), (4 : ℝ)) :=
  (avoidance_gated_on_count
      { xpos_avg := 0, ypos_avg := 0, xvel_avg := 0, yvel_avg := 0,
        neighboring_boids := 0, close_dx := -5, close_dy := 0 }
      (1, 2) (3, 4)).1 rfl

/-- Rescaling a velocity of nonzero speed to a nonnegative target
magnitude yields exactly that magnitude. -/
lemma boid_speed_rescale (v : ℝ × ℝ) (t : ℝ) (h : boid_speed v ≠ 0)
    (ht : 0 ≤ t) :
    boid_speed (v.1 / boid_speed v * t, v.2 / boid_speed v * t) = t := by
  have hs0 : (0 : ℝ) ≤ v.1 * v.1 + v.2 * v.2 :=
    add_nonneg (mul_self_nonneg v.1) (mul_self_nonneg v.2)
  have hsq : boid_speed v * boid_speed v = v.1 * v.1 + v.2 * v.2 :=
    Real.mul_self_sqrt hs0
  have h2 : v.1 / boid_speed v * t * (v.1 / boid_speed v * t) +
      v.2 / boid_speed v * t * (v.2 / boid_speed v * t) = t * t := by
    field_simp
    linear_combination (-1 : ℝ) * t ^ 2 * hsq
  calc boid_speed (v.1 / boid_speed v * t, v.2 / boid_speed v * t)
      = Real.sqrt (v.1 / boid_speed v * t * (v.1 / boid_speed v * t) +
          v.2 / boid_speed v * t * (v.2 / boid_speed v * t)) := rfl
    _ = Real.sqrt (t * t) := by rw [h2]
    _ = t := Real.sqrt_mul_self ht

/-- A speed of nonzero magnitude never produces the NaN (`none`)
outcome of `rescale_to`. -/
lemma rescale_to_ne_zero (v : ℝ × ℝ) (s t : ℝ) (h : s ≠ 0) :
    rescale_to v s t = some (v.1 / s * t, v.2 / s * t) := by
  unfold rescale_to
  rw [if_neg h]

/-- C3: for a nonzero pre-normalization speed the Speed Normalizer
returns a velocity (no NaN) whose speed lies in
`[MIN_SPEED, MAX_SPEED]`; a slow velocity is rescaled to exactly
`MIN_SPEED` preserving heading, a fast one to exactly `MAX_SPEED`, and
the two rescalings cannot both fire since `MIN_SPEED ≤ MAX_SPEED`. -/
theorem compute_new_speed_band (v : ℝ × ℝ) (h : boid_speed v ≠ 0) :
    ¬(boid_speed v < MIN_SPEED ∧ boid_speed v > MAX_SPEED) ∧
    ∃ w, compute_new_speed v = some w ∧
      MIN_SPEED ≤ boid_speed w ∧ boid_speed w ≤ MAX_SPEED ∧
      (boid_speed v < MIN_SPEED → boid_speed w = MIN_SPEED ∧
        w = (v.1 / boid_speed v * MIN_SPEED, v.2 / boid_speed v * MIN_SPEED)) ∧
      (boid_speed v > MAX_SPEED → boid_speed w = MAX_SPEED ∧
        w = (v.1 / boid_speed v * MAX_SPEED, v.2 / boid_speed v * MAX_SPEED)) := by
  have hmm : MIN_SPEED ≤ MAX_SPEED := by norm_num [MIN_SPEED, MAX_SPEED]
  have hmin0 : (0 : ℝ) ≤ MIN_SPEED := by norm_num [MIN_SPEED]
  have hmax0 : (0 : ℝ) ≤ MAX_SPEED := by norm_num [MAX_SPEED]
  refine ⟨fun hc => absurd hmm (not_le.2 (lt_trans hc.2 hc.1)), ?_⟩
  by_cases h1 : boid_speed v < MIN_SPEED
  · have hnm : ¬boid_speed v > MAX_SPEED :=
      not_lt.2 (le_of_lt (lt_of_lt_of_le h1 hmm))
    refine ⟨(v.1 / boid_speed v * MIN_SPEED, v.2 / boid_speed v * MIN_SPEED),
      ?_, ?_, ?_, fun _ => ⟨boid_speed_rescale v MIN_SPEED h hmin0, rfl⟩,
      fun h2 => absurd h2 hnm⟩
    · simp [compute_new_speed, rescale_to, h1, hnm, h]
    · rw [boid_speed_rescale v MIN_SPEED h hmin0]
    · rw [boid_speed_rescale v MIN_SPEED h hmin0]; exact hmm
  · by_cases h2 : boid_speed v > MAX_SPEED
    · refine ⟨(v.1 / boid_speed v * MAX_SPEED, v.2 / boid_speed v * MAX_SPEED),
        ?_, ?_, ?_, fun hc => absurd hc h1,
        fun _ => ⟨boid_speed_rescale v MAX_SPEED h hmax0, rfl⟩⟩
      · simp [compute_new_speed, rescale_to, h1, h2, h]
      · rw [boid_speed_rescale v MAX_SPEED h hmax0]; exact hmm
      · rw [boid_speed_rescale v MAX_SPEED h hmax0]
    · refine ⟨v, ?_, not_lt.1 h1, not_lt.1 h2,
        fun hc => absurd hc h1, fun hc => absurd hc h2⟩
      simp [compute_new_speed, rescale_to, h1, h2, h]

/-- Witness for C3: the velocity `(3, 4)` has speed `5 < MIN_SPEED` and
is rescaled to magnitude `MIN_SPEED`. -/
theorem compute_new_speed_band_witness :
    boid_speed ((3 : ℝ), (4 : ℝ)) ≠ 0 ∧
    (¬(boid_speed ((3 : ℝ), (4 : ℝ)) < MIN_SPEED ∧
        boid_speed ((3 : ℝ), (4 : ℝ)) > MAX_SPEED) ∧
      ∃ w, compute_new_speed ((3 : ℝ), (4 : ℝ)) = some w ∧
        MIN_SPEED ≤ boid_speed w ∧ boid_speed w ≤ MAX_SPEED ∧
        (boid_speed ((3 : ℝ), (4 : ℝ)) < MIN_SPEED →
          boid_speed w = MIN_SPEED ∧
          w = (3 / boid_speed ((3 : ℝ), (4 : ℝ)) * MIN_SPEED,
               4 / boid_speed ((3 : ℝ), (4 : ℝ)) * MIN_SPEED)) ∧
        (boid_speed ((3 : ℝ), (4 : ℝ)) > MAX_SPEED →
          boid_speed w = MAX_SPEED ∧
          w = (3 / boid_speed ((3 : ℝ), (4 : ℝ)) * MAX_SPEED,
               4 / boid_speed ((3 : ℝ), (4 : ℝ)) * MAX_SPEED))) := by
  have h5 : boid_speed ((3 : ℝ), (4 : ℝ)) = 5 := by
    unfold boid_speed
    rw [show (3 : ℝ) * 3 + 4 * 4 = 5 ^ 2 by norm_num,
      Real.sqrt_sq (by norm_num : (0 : ℝ) ≤ 5)]
  exact ⟨by rw [h5]; norm_num,
    compute_new_speed_band ((3 : ℝ), (4 : ℝ)) (by rw [h5]; norm_num)⟩

/-- Consistency of the two Speed Normalizer models: whenever the entry
speed is nonzero (so no division by zero occurs), `compute_new_speed`
succeeds and returns exactly the value of the total variant
`compute_new_speed0`. -/
lemma compute_new_speed0_eq (v : ℝ × ℝ) (h : boid_speed v ≠ 0) :
    compute_new_speed v = some (compute_new_speed0 v) := by
  unfold compute_new_speed compute_new_speed0 rescale_to
  dsimp only
  split_ifs <;> simp_all

/-- Unrolling the in-place loop of `move_boids`: positions before `i`
are already final, and every position from `i` on still holds its
pre-tick record, which gets updated against the fixed snapshot — the
writes performed at earlier indices are never read. -/
lemma move_boids_from_spec (d : ℝ × ℝ) (snap : List Boid) (i : ℕ)
    (live : List Boid) :
    move_boids_from d snap i live =
      live.take i ++ (live.drop i).map (update_boid d snap) := by
  by_cases h : i < live.length
  · rw [move_boids_from, dif_pos h,
      move_boids_from_spec d snap (i + 1)
        (live.set i (update_boid d snap live[i]))]
    have hT : (live.take i).length = i := by
      rw [List.length_take]; omega
    rw [List.set_eq_take_cons_drop _ h]
    rw [List.take_append_eq_append_take, List.drop_append_eq_append_drop, hT]
    have h1 : (live.take i).take (i + 1) = live.take i :=
      List.take_of_length_le (by omega)
    have h2 : (live.take i).drop (i + 1) = [] :=
      List.drop_eq_nil_of_le (by omega)
    have h3 : i + 1 - i = 1 := by omega
    rw [h1, h2, h3]
    rw [List.drop_eq_getElem_cons h]
    simp
    have hh : i < (List.map (update_boid d snap) live).length := by simpa using h
    rw [List.drop_eq_getElem_cons hh, List.getElem_map]
  · rw [move_boids_from, dif_neg h]
    rw [List.drop_eq_nil_of_le (by omega), List.take_of_length_le (by omega)]
    simp
termination_by live.length - i
decreasing_by simp [List.length_set]; omega

/-- C9: one tick of `move_boids` equals a pure map of `update_boid`
over the pre-tick snapshot.  Every agent's neighbor summary (and hence
its whole update) is a function of the immutable snapshot and its own
pre-tick record only: the mutations the loop performs at earlier
indices are never observed by later agents, so no processing order of
those mutations can change the summary any agent sees. -/
theorem move_boids_snapshot_semantics (screen_dimensions : ℝ × ℝ)
    (boids : List Boid) :
    move_boids screen_dimensions boids =
      boids.map (update_boid screen_dimensions boids) := by
  unfold move_boids
  rw [move_boids_from_spec]
  simp

end Boids

end
